import Mathlib

/-!
Shallow embedding of the Cloudflare-worker live-room code refresher
(`cf_worker.js`, the version with list → name-match → refresh → notify).

JavaScript JSON values are modelled by the inductive `JVal` (numbers as
integers: the protocol's numeric fields are ids and error codes).  Optional
chaining `x?.f` is `jGet` / `jPath` returning `Option JVal` with `none`
playing the role of `undefined`; JS truthiness is `truthy` / `optTruthy`;
the nullish-coalescing operator `??` is `jNN`-normalisation followed by
`<;>`-style `Option` fallback; `String(v)` is `jsToString`.

The ambient HTTP client is an oracle `Fetcher : Request → Except String
HttpResponse`: an `Except.error` is a `fetch` that threw, and the response's
`textBody` / `jsonBody` fields carry the (possibly throwing) results of
`.text()` / `.json()`.  Every network-touching function returns, next to its
value, the list of requests it issued, in order, so that theorems can speak
about which endpoints were called.
-/

namespace LiveTask

/-- JSON-ish JavaScript values. -/
inductive JVal where
  | null
  | bool (b : Bool)
  | str (s : String)
  | num (n : Int)
  | arr (xs : List JVal)
  | obj (fields : List (String × JVal))

/-- Optional chaining `v?.k`: field lookup that yields `none` (undefined)
on non-objects and missing keys, as JS property access does on every
non-nullish non-object value. -/
def jGet : JVal → String → Option JVal
  | JVal.obj fields, k => (fields.find? (fun kv => kv.1 == k)).map (fun kv => kv.2)
  | _, _ => none

/-- Iterated optional chaining `v?.k₁?.k₂...`. -/
def jPath (v : JVal) (ks : List String) : Option JVal :=
  ks.foldl (fun acc k => match acc with
    | some w => jGet w k
    | none => none) (some v)

/-- JS truthiness of a defined value. -/
def truthy : JVal → Bool
  | JVal.null => false
  | JVal.bool b => b
  | JVal.str s => !s.isEmpty
  | JVal.num n => decide (n ≠ 0)
  | JVal.arr _ => true
  | JVal.obj _ => true

/-- JS truthiness where `none` is `undefined` (falsy). -/
def optTruthy : Option JVal → Bool
  | none => false
  | some v => truthy v

/-- Normalise for `??`: both `undefined` (`none`) and `null` are nullish. -/
def jNN : Option JVal → Option JVal
  | none => none
  | some JVal.null => none
  | some v => some v

mutual

/-- JS `String(v)` coercion. -/
def jsToString : JVal → String
  | JVal.null => "null"
  | JVal.bool b => if b then "true" else "false"
  | JVal.str s => s
  | JVal.num n => toString n
  | JVal.arr xs => String.intercalate "," (jsJoinParts xs)
  | JVal.obj _ => "[object Object]"

/-- `Array.prototype.join` coerces each element with `String`, except that
nullish elements become the empty string. -/
def jsJoinParts : List JVal → List String
  | [] => []
  | JVal.null :: vs => "" :: jsJoinParts vs
  | v :: vs => jsToString v :: jsJoinParts vs

end

/-- JS `x || d` for an optionally-defined value `x` and string default `d`,
with the chosen value coerced by `String` (as `new Error(x)` does). -/
def jsOrString (x : Option JVal) (d : String) : String :=
  match x with
  | some v => if truthy v then jsToString v else d
  | none => d

/-- Boolean prefix test on character lists. -/
def charsPrefix : List Char → List Char → Bool
  | [], _ => true
  | _ :: _, [] => false
  | a :: as, b :: bs => (a == b) && charsPrefix as bs

/-- Contiguous-sublist test on character lists. -/
def charsInclude (target : List Char) : List Char → Bool
  | [] => target.isEmpty
  | c :: cs => charsPrefix target (c :: cs) || charsInclude target cs

/-- JS `name.includes(target)`: case-sensitive substring containment. -/
def strIncludes (name target : String) : Bool :=
  charsInclude target.toList name.toList

/-- JS `String.prototype.split` with a single-character separator:
`"".split(sep) = [""]`, `"|".split("|") = ["", ""]`, etc. -/
def splitOnChar (sep : Char) : List Char → List (List Char)
  | [] => [[]]
  | c :: cs =>
    let r := splitOnChar sep cs
    if c == sep then [] :: r
    else match r with
      | [] => [[c]]
      | g :: gs => (c :: g) :: gs

/-- The `item.split("|")` of the source, on Lean strings. -/
def jsSplitPipe (s : String) : List String :=
  (splitOnChar '|' s.toList).map List.asString

/-- JS `String.prototype.trim`: strip whitespace from both ends. -/
def jsTrim (s : String) : String :=
  (((s.toList.dropWhile Char.isWhitespace).reverse.dropWhile Char.isWhitespace).reverse).asString

/-- One configured upstream server (`{alias, url}`). -/
structure ServerConfig where
  aliasName : String
  url : String
deriving DecidableEq

/-- The requests the worker can issue, identified by endpoint and payload.
`liveList` is POST `/api/live/liveList` (fixed pagination body),
`refreshVerify` is POST `/api/live/refreshVerifyCode` with `{param}`,
`batchRefVerify` is POST `/api/live/batchRefVerifyCode` with `{param}`,
`webhook` is the WeChat webhook POST with the text `content`. -/
inductive Request where
  | liveList (host : String) (token : String)
  | refreshVerify (host : String) (token : String) (param : String)
  | batchRefVerify (host : String) (token : String) (param : String)
  | webhook (key : String) (content : String)
deriving DecidableEq

/-- An HTTP response as the code observes it.  `textBody` / `jsonBody` are
the results of `.text()` / `.json()`, `Except.error` meaning the call threw
(carrying the exception text). -/
structure HttpResponse where
  ok : Bool
  status : Nat
  statusText : String
  textBody : Except String String
  jsonBody : Except String JVal

/-- The ambient `fetch`: `Except.error` is a thrown network exception. -/
abbrev Fetcher := Request → Except String HttpResponse

/-- `safeError(response)`: status line plus body, falling back to the bare
status line when `.text()` itself throws. -/
def safeError (res : HttpResponse) : String :=
  match res.textBody with
  | Except.ok body => toString res.status ++ " " ++ res.statusText ++ ": " ++ body
  | Except.error _ => toString res.status ++ " " ++ res.statusText

/-- `safeJson(response)`: the parsed JSON payload, with malformed JSON
yielding `null` instead of an exception. -/
def safeJson (res : HttpResponse) : JVal :=
  match res.jsonBody with
  | Except.ok j => j
  | Except.error _ => JVal.null

/-- `parseLiveNameGroups(liveNames)`: drop falsy (empty) raw entries, then
split each on `|`, trim, and drop empty patterns. -/
def parseLiveNameGroups (liveNames : List String) : List (List String) :=
  (liveNames.filter (fun s => !s.isEmpty)).map (fun item =>
    ((jsSplitPipe item).map jsTrim).filter (fun n => !n.isEmpty))

/-- `String(room?.name || "")` from the matcher's predicate. -/
def roomName (room : JVal) : String :=
  match jGet room "name" with
  | some v => if truthy v then jsToString v else ""
  | none => ""

/-- The predicate of `liveList.find` in `filterLiveRooms`:
`name && name.includes(target)`. -/
def roomNameMatches (room : JVal) (target : String) : Bool :=
  let name := roomName room
  !name.isEmpty && strIncludes name target

/-- `{names, rooms}`: the rooms found for one name-pattern group. -/
structure MatchedGroup where
  names : List String
  rooms : List JVal

/-- `filterLiveRooms(liveList, liveNames)`: per group, per pattern, the
first matching room (push loops rendered as `filterMap`); groups that
collect no rooms are dropped. -/
def filterLiveRooms (liveList : List JVal) (liveNames : List String) :
    List MatchedGroup :=
  (parseLiveNameGroups liveNames).filterMap (fun nameGroup =>
    let rooms := nameGroup.filterMap (fun target =>
      liveList.find? (fun room => roomNameMatches room target))
    if rooms.length > 0 then some (MatchedGroup.mk nameGroup rooms) else none)

/-- `fetchLiveList(server, token, fetcher)`: POST the list endpoint; throw
on non-2xx, on malformed JSON, on falsy `meta.success`, and on a `data`
field that is not an array; otherwise return the `data` array.  The second
component is the request log. -/
def fetchLiveList (server : ServerConfig) (token : String) (fetcher : Fetcher) :
    Except String (List JVal) × List Request :=
  let req := Request.liveList server.url token
  match fetcher req with
  | Except.error e => (Except.error e, [req])
  | Except.ok res =>
    if !res.ok then (Except.error (safeError res), [req])
    else match res.jsonBody with
      | Except.error e => (Except.error e, [req])
      | Except.ok data =>
        if !optTruthy (jPath data ["meta", "success"]) then
          (Except.error (jsOrString (jPath data ["meta", "message"]) "获取直播列表失败"), [req])
        else match jGet data "data" with
          | some (JVal.arr xs) => (Except.ok xs, [req])
          | _ => (Except.error "直播列表数据格式异常", [req])

/-- `{code, success, message}` as returned by the two refresh calls. -/
structure RefreshResult where
  code : String
  success : Bool
  message : String
deriving DecidableEq

/-- The 2xx-payload handling of `refreshRoomCode`:
`success = Boolean(data?.meta?.success)`;
`code = data?.data?.code ?? data?.meta?.message ?? "刷新失败"`;
`message = success ? "" : String(code)`. -/
def parseRefreshSingle (data : JVal) : RefreshResult :=
  let success := optTruthy (jPath data ["meta", "success"])
  let code := match jNN (jPath data ["data", "code"]) with
    | some v => v
    | none => match jNN (jPath data ["meta", "message"]) with
      | some w => w
      | none => JVal.str "刷新失败"
  { code := jsToString code, success := success,
    message := if success then "" else jsToString code }

/-- The 2xx-payload handling of `refreshMultiRoomCode`: identical except the
code is read from the top-level `data` field:
`code = data?.data ?? data?.meta?.message ?? "刷新失败"`. -/
def parseRefreshMulti (data : JVal) : RefreshResult :=
  let success := optTruthy (jPath data ["meta", "success"])
  let code := match jNN (jGet data "data") with
    | some v => v
    | none => match jNN (jPath data ["meta", "message"]) with
      | some w => w
      | none => JVal.str "刷新失败"
  { code := jsToString code, success := success,
    message := if success then "" else jsToString code }

/-- `refreshRoomCode(server, token, liveId, fetcher)`: POST the single-room
refresh endpoint with `{param: String(liveId)}`; throw on non-2xx, else
parse the payload defensively (`safeJson`). -/
def refreshRoomCode (server : ServerConfig) (token : String) (liveId : JVal)
    (fetcher : Fetcher) : Except String RefreshResult × List Request :=
  let req := Request.refreshVerify server.url token (jsToString liveId)
  match fetcher req with
  | Except.error e => (Except.error e, [req])
  | Except.ok res =>
    if !res.ok then (Except.error (safeError res), [req])
    else (Except.ok (parseRefreshSingle (safeJson res)), [req])

/-- `refreshMultiRoomCode(server, token, liveIds, fetcher)`: POST the batch
refresh endpoint with `{param: liveIds.join(",")}`; throw on non-2xx, else
parse the payload defensively. -/
def refreshMultiRoomCode (server : ServerConfig) (token : String)
    (liveIds : List JVal) (fetcher : Fetcher) :
    Except String RefreshResult × List Request :=
  let req := Request.batchRefVerify server.url token
    (String.intercalate "," (jsJoinParts liveIds))
  match fetcher req with
  | Except.error e => (Except.error e, [req])
  | Except.ok res =>
    if !res.ok then (Except.error (safeError res), [req])
    else (Except.ok (parseRefreshMulti (safeJson res)), [req])

/-- One entry of `ServerResult.rooms`: a `RefreshResult` tagged with the
group's display name. -/
structure RefreshOutcome where
  name : String
  code : String
  success : Bool
  message : String
deriving DecidableEq

/-- `group.rooms.map((r) => r?.id).filter(Boolean)` from the refresh loop. -/
def liveIdsOf (group : MatchedGroup) : List JVal :=
  (group.rooms.map (fun r => jGet r "id")).filterMap (fun o =>
    match o with
    | some v => if truthy v then some v else none
    | none => none)

/-- The body of `refreshServer`'s per-group loop: synthesize a failed
outcome when no room contributed a (truthy) id, otherwise dispatch on the
number of ids to the single or batch refresh call, converting a thrown
exception into a failed outcome with message `刷码异常：<text>`. -/
def refreshGroup (server : ServerConfig) (token : String) (group : MatchedGroup)
    (fetcher : Fetcher) : RefreshOutcome × List Request :=
  let displayName := String.intercalate "|" group.names
  let liveIds := liveIdsOf group
  if liveIds.isEmpty then
    ({ name := displayName, code := "缺少直播间 ID，无法刷码", success := false,
       message := "缺少直播间 ID，无法刷码" }, [])
  else
    let r := if liveIds.length == 1 then
        refreshRoomCode server token (liveIds.headD JVal.null) fetcher
      else
        refreshMultiRoomCode server token liveIds fetcher
    match r.1 with
    | Except.ok refresh =>
        ({ name := displayName, code := refresh.code, success := refresh.success,
           message := refresh.message }, r.2)
    | Except.error e =>
        ({ name := displayName, code := "刷码异常：" ++ e, success := false,
           message := "刷码异常：" ++ e }, r.2)

/-- `{alias, rooms, success, error}`: the per-server aggregate. -/
structure ServerResult where
  aliasName : String
  rooms : List RefreshOutcome
  success : Bool
  error : Option String
deriving DecidableEq

/-- `refreshServer(server, token, liveNames, fetcher)`: fetch the list (on
failure set `error` and return), match the name groups (none matched also
sets `error` and returns), otherwise run the refresh loop over the matched
groups and aggregate `success = rooms.length > 0 && every success`. -/
def refreshServer (server : ServerConfig) (token : String)
    (liveNames : List String) (fetcher : Fetcher) : ServerResult × List Request :=
  let fl := fetchLiveList server token fetcher
  match fl.1 with
  | Except.error e =>
      ({ aliasName := server.aliasName, rooms := [], success := false,
         error := some ("获取直播列表失败：" ++ e) }, fl.2)
  | Except.ok liveList =>
      let matched := filterLiveRooms liveList liveNames
      if matched.isEmpty then
        ({ aliasName := server.aliasName, rooms := [], success := false,
           error := some "未匹配到任何需要刷码的直播间" }, fl.2)
      else
        let outs := matched.map (fun g => refreshGroup server token g fetcher)
        let rooms := outs.map (fun o => o.1)
        ({ aliasName := server.aliasName, rooms := rooms,
           success := decide (rooms.length > 0) && rooms.all (fun r => r.success),
           error := none },
         fl.2 ++ (outs.map (fun o => o.2)).flatten)

/-- `buildMessage(serverResult)`: the chat text — a two-line failure message
when `error` is set, otherwise a header plus one line per outcome (or a
"no rooms matched" line when there are none). -/
def buildMessage (serverResult : ServerResult) : String :=
  let al := if serverResult.aliasName.isEmpty then "unknown" else serverResult.aliasName
  match serverResult.error with
  | some err => "【" ++ al ++ "】刷码失败" ++ "\n" ++ "原因：" ++ err
  | none =>
    let header := if serverResult.success then "刷码成功" else "刷码完成（部分失败）"
    let firstLine := "【" ++ al ++ "】" ++ header
    let rooms := serverResult.rooms
    let lines := if rooms.isEmpty then [firstLine, "未匹配到需要刷码的直播间"]
      else firstLine :: rooms.map (fun room =>
        if room.success then room.name ++ ":" ++ room.code
        else room.name ++ " 刷码失败：" ++ room.message)
    String.intercalate "\n" lines

/-- `sendNotification(webhookKey, serverResult, fetcher)`: POST the built
message to the webhook; throw on non-2xx or on a payload whose `errcode`
is not the number 0. -/
def sendNotification (webhookKey : String) (serverResult : ServerResult)
    (fetcher : Fetcher) : Except String Unit × List Request :=
  let req := Request.webhook webhookKey (buildMessage serverResult)
  match fetcher req with
  | Except.error e => (Except.error e, [req])
  | Except.ok res =>
    if !res.ok then (Except.error (safeError res), [req])
    else
      let data := safeJson res
      match jGet data "errcode" with
      | some (JVal.num 0) => (Except.ok (), [req])
      | _ => (Except.error (jsOrString (jGet data "errmsg") "企业微信返回错误"), [req])

/-- `refreshAll(servers, token, liveNames, fetcher)`: run `refreshServer`
for every server sequentially, collecting results and request logs. -/
def refreshAll (servers : List ServerConfig) (token : String)
    (liveNames : List String) (fetcher : Fetcher) :
    List ServerResult × List Request :=
  let rs := servers.map (fun s => refreshServer s token liveNames fetcher)
  (rs.map (fun r => r.1), (rs.map (fun r => r.2)).flatten)

/-- The configuration produced by `loadConfig` (whose parsing of the
environment is orthogonal to the claims below). -/
structure RunConfig where
  servers : List ServerConfig
  liveNames : List String
  token : String
  webhookKey : String

/-- The body of `run` after `loadConfig`: refresh every server, then loop
over the results attempting one notification each; each attempt's exception
is caught inside the loop (logged and discarded), so the loop always
reaches every result and `run` returns the refresh results.  Components:
the results, the per-result notification outcomes, and the full request
log. -/
def run (cfg : RunConfig) (fetcher : Fetcher) :
    List ServerResult × List (Except String Unit) × List Request :=
  let ra := refreshAll cfg.servers cfg.token cfg.liveNames fetcher
  let notes := ra.1.map (fun result => sendNotification cfg.webhookKey result fetcher)
  (ra.1, (notes.map (fun n => n.1), ra.2 ++ (notes.map (fun n => n.2)).flatten))

/-! ## Helper lemmas -/

theorem charsPrefix_iff (t : List Char) :
    ∀ l, charsPrefix t l = true ↔ ∃ rest, l = t ++ rest := by
  induction t with
  | nil =>
    intro l
    simp [charsPrefix]
  | cons a as ih =>
    intro l
    cases l with
    | nil =>
      simp [charsPrefix]
    | cons b bs =>
      simp only [charsPrefix, Bool.and_eq_true, beq_iff_eq, List.cons_append]
      constructor
      · rintro ⟨hab, h⟩
        obtain ⟨rest, hrest⟩ := (ih bs).1 h
        exact ⟨rest, by simp [hab, hrest]⟩
      · rintro ⟨rest, hrest⟩
        injection hrest with h1 h2
        exact ⟨h1.symm, (ih bs).2 ⟨rest, h2⟩⟩

theorem charsInclude_iff (t : List Char) :
    ∀ l, charsInclude t l = true ↔ ∃ l1 l2, l = l1 ++ t ++ l2 := by
  intro l
  induction l with
  | nil =>
    simp only [charsInclude]
    constructor
    · intro h
      exact ⟨[], [], by simp [List.isEmpty_iff.1 h]⟩
    · rintro ⟨l1, l2, h⟩
      have h' : l1 ++ t ++ l2 = [] := h.symm
      rw [List.append_eq_nil] at h'
      rw [List.append_eq_nil] at h'
      simp [List.isEmpty_iff, h'.1.2]
  | cons c cs ih =>
    simp only [charsInclude, Bool.or_eq_true]
    constructor
    · rintro (h | h)
      · obtain ⟨rest, hrest⟩ := (charsPrefix_iff t (c :: cs)).1 h
        exact ⟨[], rest, by simp [hrest]⟩
      · obtain ⟨l1, l2, h12⟩ := ih.1 h
        exact ⟨c :: l1, l2, by simp [h12]⟩
    · rintro ⟨l1, l2, h⟩
      cases l1 with
      | nil =>
        exact Or.inl ((charsPrefix_iff t (c :: cs)).2 ⟨l2, by simpa using h⟩)
      | cons x xs =>
        refine Or.inr (ih.2 ⟨xs, l2, ?_⟩)
        have h' : c :: cs = x :: (xs ++ t ++ l2) := by
          simpa [List.cons_append] using h
        exact (List.cons.inj h').2

theorem strIncludes_iff (name target : String) :
    strIncludes name target = true ↔
      ∃ l1 l2, name.toList = l1 ++ target.toList ++ l2 :=
  charsInclude_iff target.toList name.toList

theorem refreshRoomCode_log (server : ServerConfig) (token : String) (liveId : JVal)
    (fetcher : Fetcher) :
    (refreshRoomCode server token liveId fetcher).2 =
      [Request.refreshVerify server.url token (jsToString liveId)] := by
  unfold refreshRoomCode
  cases h : fetcher (Request.refreshVerify server.url token (jsToString liveId)) with
  | error e => simp [h]
  | ok res => by_cases hok : res.ok = true <;> simp [h, hok]

theorem refreshMultiRoomCode_log (server : ServerConfig) (token : String)
    (liveIds : List JVal) (fetcher : Fetcher) :
    (refreshMultiRoomCode server token liveIds fetcher).2 =
      [Request.batchRefVerify server.url token
        (String.intercalate "," (jsJoinParts liveIds))] := by
  unfold refreshMultiRoomCode
  cases h : fetcher (Request.batchRefVerify server.url token
      (String.intercalate "," (jsJoinParts liveIds))) with
  | error e => simp [h]
  | ok res => by_cases hok : res.ok = true <;> simp [h, hok]

theorem sendNotification_log (webhookKey : String) (serverResult : ServerResult)
    (fetcher : Fetcher) :
    (sendNotification webhookKey serverResult fetcher).2 =
      [Request.webhook webhookKey (buildMessage serverResult)] := by
  unfold sendNotification
  cases h : fetcher (Request.webhook webhookKey (buildMessage serverResult)) with
  | error e => simp [h]
  | ok res =>
    by_cases hok : res.ok = true
    · simp only [h, hok, Bool.not_true, Bool.false_eq_true, if_false]
      split <;> rfl
    · simp [h, hok]

theorem flatten_map_singleton {α β : Type} (g : α → β) :
    ∀ l : List α, ((l.map (fun a => [g a])).flatten) = l.map g := by
  intro l
  induction l with
  | nil => rfl
  | cons a t ih => simp [ih]

theorem fetchLiveList_log (server : ServerConfig) (token : String)
    (fetcher : Fetcher) :
    (fetchLiveList server token fetcher).2 = [Request.liveList server.url token] := by
  unfold fetchLiveList
  cases h : fetcher (Request.liveList server.url token) with
  | error e => simp [h]
  | ok res =>
    by_cases hok : res.ok = true
    · simp only [h, hok, Bool.not_true, Bool.false_eq_true, if_false]
      split <;> (try split) <;> (try split) <;> rfl
    · simp [h, hok]

/-! ## Claims -/

/-- C5: `filterLiveRooms` selects, for each pattern in group order, the
first room in list order whose name contains the pattern as a substring;
unmatched patterns contribute nothing and a group collecting zero rooms is
dropped.  Stated as: (1) the result is the per-group list of per-pattern
`find?` results, groups with empty `rooms` filtered out; (2) `find?`
returns a matching room all of whose predecessors in list order do not
match; (3) the match predicate's `strIncludes` is exact (case-sensitive)
substring containment. -/
theorem C5_filterLiveRooms_first_match (liveList : List JVal) (liveNames : List String) :
    (filterLiveRooms liveList liveNames =
      ((parseLiveNameGroups liveNames).map (fun nameGroup =>
        MatchedGroup.mk nameGroup (nameGroup.filterMap (fun target =>
          liveList.find? (fun room => roomNameMatches room target))))).filter
        (fun g => decide (0 < g.rooms.length)))
    ∧ (∀ target r, liveList.find? (fun room => roomNameMatches room target) = some r →
        roomNameMatches r target = true ∧
        ∃ l1 l2, liveList = l1 ++ r :: l2 ∧ ∀ x ∈ l1, roomNameMatches x target = false)
    ∧ (∀ name target, strIncludes name target = true ↔
        ∃ l1 l2, name.toList = l1 ++ target.toList ++ l2) := by
  refine ⟨?_, ?_, fun name target => strIncludes_iff name target⟩
  · unfold filterLiveRooms
    generalize parseLiveNameGroups liveNames = gs
    induction gs with
    | nil => rfl
    | cons g t ih =>
      by_cases h : 0 < (g.filterMap (fun target =>
          liveList.find? (fun room => roomNameMatches room target))).length
      · simp [List.filterMap_cons, List.filter_cons, h, ih, gt_iff_lt]
      · simp [List.filterMap_cons, List.filter_cons, h, ih, gt_iff_lt]
  · intro target r h
    obtain ⟨hp, as, bs, hsplit, hpred⟩ := List.find?_eq_some.1 h
    refine ⟨hp, as, bs, hsplit, fun x hx => ?_⟩
    simpa using hpred x hx

/-- C5 witness: on the spec's example — rooms `Room Alpha` (id 1) and
`Room Beta` (id 2) with pattern `Beta` — `find?` returns the Beta room,
its sole predecessor not matching. -/
theorem C5_witness :
    roomNameMatches
        (JVal.obj [("id", JVal.num 2), ("name", JVal.str "Room Beta")]) "Beta" = true ∧
      ∃ l1 l2,
        [JVal.obj [("id", JVal.num 1), ("name", JVal.str "Room Alpha")],
          JVal.obj [("id", JVal.num 2), ("name", JVal.str "Room Beta")]] =
          l1 ++ (JVal.obj [("id", JVal.num 2), ("name", JVal.str "Room Beta")]) :: l2 ∧
        ∀ x ∈ l1, roomNameMatches x "Beta" = false :=
  (C5_filterLiveRooms_first_match
    [JVal.obj [("id", JVal.num 1), ("name", JVal.str "Room Alpha")],
      JVal.obj [("id", JVal.num 2), ("name", JVal.str "Room Beta")]] ["Beta"]).2.1
    "Beta" (JVal.obj [("id", JVal.num 2), ("name", JVal.str "Room Beta")]) (by rfl)

/-- C6 counterexample: the raw entry `"|"` yields zero patterns, yet
`parseLiveNameGroups` keeps it as an empty group instead of dropping it. -/
theorem C6_counterexample :
    parseLiveNameGroups ["|"] = [[]] ∧
      parseLiveNameGroups ["|"] ≠ [] := by
  refine ⟨by rfl, by decide⟩

/-- C6 (amended): `parseLiveNameGroups` splits each entry on `|`, trims,
and drops empty patterns, but only entries that are themselves the empty
string are dropped; a non-empty entry whose patterns all trim to empty
(such as `"|"`) is kept as a group with zero patterns.  In particular
`["A", "B|C", ""]` yields exactly `[["A"], ["B", "C"]]`, and the output has
exactly one group per non-empty raw entry, with every produced pattern
non-empty. -/
theorem C6_parseLiveNameGroups_amended :
    parseLiveNameGroups ["A", "B|C", ""] = [["A"], ["B", "C"]] ∧
    (∀ names : List String, (parseLiveNameGroups names).length =
      (names.filter (fun s => !s.isEmpty)).length) ∧
    (∀ names : List String, ∀ g ∈ parseLiveNameGroups names, ∀ p ∈ g,
      p.isEmpty = false) := by
  refine ⟨by rfl, fun names => by simp [parseLiveNameGroups], ?_⟩
  intro names g hg p hp
  unfold parseLiveNameGroups at hg
  obtain ⟨item, _, rfl⟩ := List.mem_map.1 hg
  have := (List.mem_filter.1 hp).2
  simpa using this

/-- C6 witness: the membership fact of the amended theorem at the concrete
group `["B", "C"]` of the spec's example input. -/
theorem C6_witness :
    ("B" : String).isEmpty = false :=
  C6_parseLiveNameGroups_amended.2.2 ["A", "B|C", ""] ["B", "C"] (by decide)
    "B" (by decide)

/-- C2: on a 2xx response with a successful payload, the batch refresh
reads the verification code from the payload's top-level `data` field while
the single refresh reads it from `data.code`: with `meta.success` truthy
and the respective field non-nullish, each call returns that field,
stringified, as the code, with `success = true` and empty `message`. -/
theorem C2_code_field_asymmetry (server : ServerConfig) (token : String)
    (liveId : JVal) (liveIds : List JVal) (fetcher : Fetcher)
    (resS resB : HttpResponse) (pS pB vS vB : JVal)
    (hfS : fetcher (Request.refreshVerify server.url token (jsToString liveId)) =
      Except.ok resS)
    (hokS : resS.ok = true)
    (hpS : resS.jsonBody = Except.ok pS)
    (hsucS : optTruthy (jPath pS ["meta", "success"]) = true)
    (hcodeS : jNN (jPath pS ["data", "code"]) = some vS)
    (hfB : fetcher (Request.batchRefVerify server.url token
      (String.intercalate "," (jsJoinParts liveIds))) = Except.ok resB)
    (hokB : resB.ok = true)
    (hpB : resB.jsonBody = Except.ok pB)
    (hsucB : optTruthy (jPath pB ["meta", "success"]) = true)
    (hcodeB : jNN (jGet pB "data") = some vB) :
    (refreshRoomCode server token liveId fetcher).1 =
        Except.ok { code := jsToString vS, success := true, message := "" } ∧
      (refreshMultiRoomCode server token liveIds fetcher).1 =
        Except.ok { code := jsToString vB, success := true, message := "" } := by
  constructor
  · simp [refreshRoomCode, hfS, hokS, safeJson, hpS, parseRefreshSingle, hsucS, hcodeS]
  · simp [refreshMultiRoomCode, hfB, hokB, safeJson, hpB, parseRefreshMulti, hsucB, hcodeB]

/-- C2 witness payloads: a successful single-refresh payload with the code
under `data.code`, and a successful batch payload whose `data` field is the
bare code string (no `data.code` at all). -/
def c2SinglePayload : JVal :=
  JVal.obj [("meta", JVal.obj [("success", JVal.bool true)]),
    ("data", JVal.obj [("code", JVal.str "6800")])]

/-- C2 witness batch payload (`data` is the shared code directly). -/
def c2BatchPayload : JVal :=
  JVal.obj [("meta", JVal.obj [("success", JVal.bool true)]),
    ("data", JVal.str "3200")]

/-- C2 witness fetcher: 2xx responses carrying the two payloads. -/
def c2Fetcher : Fetcher := fun req =>
  match req with
  | Request.refreshVerify _ _ _ =>
    Except.ok
      { ok := true, status := 200, statusText := "OK",
        textBody := Except.ok "", jsonBody := Except.ok c2SinglePayload }
  | Request.batchRefVerify _ _ _ =>
    Except.ok
      { ok := true, status := 200, statusText := "OK",
        textBody := Except.ok "", jsonBody := Except.ok c2BatchPayload }
  | _ => Except.error "unused"

/-- C2 witness: on the concrete payloads, the single refresh yields the
`data.code` value `6800` and the batch refresh the top-level `data` value
`3200`. -/
theorem C2_witness :
    (refreshRoomCode ⟨"east", "h"⟩ "t" (JVal.str "1") c2Fetcher).1 =
        Except.ok { code := "6800", success := true, message := "" } ∧
      (refreshMultiRoomCode ⟨"east", "h"⟩ "t" [JVal.str "1", JVal.str "2"] c2Fetcher).1 =
        Except.ok { code := "3200", success := true, message := "" } :=
  C2_code_field_asymmetry ⟨"east", "h"⟩ "t" (JVal.str "1")
    [JVal.str "1", JVal.str "2"] c2Fetcher _ _ c2SinglePayload c2BatchPayload
    (JVal.str "6800") (JVal.str "3200") rfl rfl rfl rfl rfl rfl rfl rfl rfl rfl

/-- C3: `ServerResult.success` is true iff the `rooms` list is non-empty
and every outcome succeeded; and a server whose list fetch succeeded but
for which no name group matched gets `success = false` with a non-null
`error`. -/
theorem C3_success_characterisation (server : ServerConfig) (token : String)
    (liveNames : List String) (fetcher : Fetcher) :
    ((refreshServer server token liveNames fetcher).1.success = true ↔
      ((refreshServer server token liveNames fetcher).1.rooms ≠ [] ∧
        ∀ r ∈ (refreshServer server token liveNames fetcher).1.rooms,
          r.success = true))
    ∧ (∀ L, (fetchLiveList server token fetcher).1 = Except.ok L →
        filterLiveRooms L liveNames = [] →
        (refreshServer server token liveNames fetcher).1.success = false ∧
          (refreshServer server token liveNames fetcher).1.error ≠ none) := by
  constructor
  · rcases hfl : (fetchLiveList server token fetcher).1 with e | L
    · simp [refreshServer, hfl]
    · by_cases hm : (filterLiveRooms L liveNames).isEmpty
      · simp [refreshServer, hfl, hm]
      · simp [refreshServer, hfl, hm, List.all_eq_true, List.length_pos,
          Bool.and_eq_true, decide_eq_true_eq]
  · intro L hL hmatch
    simp [refreshServer, hL, hmatch]

/-- C3 witness list payload: a good list response containing zero rooms. -/
def c3ListPayload : JVal :=
  JVal.obj [("meta", JVal.obj [("success", JVal.bool true)]),
    ("data", JVal.arr [])]

/-- C3 witness fetcher. -/
def c3Fetcher : Fetcher := fun _ =>
  Except.ok
    { ok := true, status := 200, statusText := "OK",
      textBody := Except.ok "", jsonBody := Except.ok c3ListPayload }

/-- C3 witness: with an empty room list no group matches, so the server
result fails with a non-null error. -/
theorem C3_witness :
    (refreshServer ⟨"east", "h"⟩ "t" ["A"] c3Fetcher).1.success = false ∧
      (refreshServer ⟨"east", "h"⟩ "t" ["A"] c3Fetcher).1.error ≠ none :=
  (C3_success_characterisation ⟨"east", "h"⟩ "t" ["A"] c3Fetcher).2
    [] (by simp [fetchLiveList, c3Fetcher, c3ListPayload, jPath, jGet, optTruthy, truthy])
    (by rfl)

/-- C4: when the list fetch fails — non-2xx status, falsy `meta.success`,
or a `data` field that is not an array — `refreshServer` returns a result
with `error` set, empty `rooms` and `success = false`, and its request log
is just the one list request: no refresh endpoint is called. -/
theorem C4_list_failure_no_refresh (server : ServerConfig) (token : String)
    (liveNames : List String) (fetcher : Fetcher) (res : HttpResponse)
    (hres : fetcher (Request.liveList server.url token) = Except.ok res)
    (hfail : res.ok = false
      ∨ (∃ p, res.jsonBody = Except.ok p ∧
          optTruthy (jPath p ["meta", "success"]) = false)
      ∨ (∃ p, res.jsonBody = Except.ok p ∧
          ∀ xs, jGet p "data" ≠ some (JVal.arr xs))) :
    (∃ e, (refreshServer server token liveNames fetcher).1 =
        { aliasName := server.aliasName, rooms := [], success := false,
          error := some e })
    ∧ (refreshServer server token liveNames fetcher).2 =
        [Request.liveList server.url token] := by
  have herr : ∃ e, (fetchLiveList server token fetcher).1 = Except.error e := by
    rcases hfail with hko | ⟨p, hp, hsuc⟩ | ⟨p, hp, hdata⟩
    · exact ⟨safeError res, by simp [fetchLiveList, hres, hko]⟩
    · rcases hok : res.ok with _ | _
      · exact ⟨safeError res, by simp [fetchLiveList, hres, hok]⟩
      · exact ⟨jsOrString (jPath p ["meta", "message"]) "获取直播列表失败",
          by simp [fetchLiveList, hres, hok, hp, hsuc]⟩
    · rcases hok : res.ok with _ | _
      · exact ⟨safeError res, by simp [fetchLiveList, hres, hok]⟩
      · rcases hsuc : optTruthy (jPath p ["meta", "success"]) with _ | _
        · exact ⟨jsOrString (jPath p ["meta", "message"]) "获取直播列表失败",
            by simp [fetchLiveList, hres, hok, hp, hsuc]⟩
        · refine ⟨"直播列表数据格式异常", ?_⟩
          cases hd : jGet p "data" with
          | none => simp [fetchLiveList, hres, hok, hp, hsuc, hd]
          | some v =>
            cases v with
            | arr xs => exact absurd hd (hdata xs)
            | null => simp [fetchLiveList, hres, hok, hp, hsuc, hd]
            | bool b => simp [fetchLiveList, hres, hok, hp, hsuc, hd]
            | str s => simp [fetchLiveList, hres, hok, hp, hsuc, hd]
            | num n => simp [fetchLiveList, hres, hok, hp, hsuc, hd]
            | obj fs => simp [fetchLiveList, hres, hok, hp, hsuc, hd]
  obtain ⟨e, he⟩ := herr
  refine ⟨⟨"获取直播列表失败：" ++ e, ?_⟩, ?_⟩
  · simp [refreshServer, he]
  · simp [refreshServer, he, fetchLiveList_log]

/-- C4 witness fetcher: the list endpoint answers with a non-2xx status. -/
def c4Fetcher : Fetcher := fun _ =>
  Except.ok
    { ok := false, status := 500, statusText := "Internal Server Error",
      textBody := Except.ok "boom", jsonBody := Except.error "not json" }

/-- C4 witness: with a 500 on the list endpoint, the server result carries
an error with empty rooms and only the list request was issued. -/
theorem C4_witness :
    (∃ e, (refreshServer ⟨"east", "h"⟩ "t" ["A"] c4Fetcher).1 =
        { aliasName := "east", rooms := [], success := false, error := some e })
    ∧ (refreshServer ⟨"east", "h"⟩ "t" ["A"] c4Fetcher).2 =
        [Request.liveList "h" "t"] :=
  C4_list_failure_no_refresh ⟨"east", "h"⟩ "t" ["A"] c4Fetcher _ rfl (Or.inl rfl)

/-- C7 counterexample payload: 2xx, `meta.success` falsy with message
`服务繁忙`, but with a `data.code` field (`9999`) still present. -/
def c7Payload : JVal :=
  JVal.obj [("meta", JVal.obj [("success", JVal.bool false),
      ("message", JVal.str "服务繁忙")]),
    ("data", JVal.obj [("code", JVal.str "9999")])]

/-- C7 fetcher returning the counterexample payload with a 2xx status. -/
def c7Fetcher : Fetcher := fun _ =>
  Except.ok
    { ok := true, status := 200, statusText := "OK",
      textBody := Except.ok "", jsonBody := Except.ok c7Payload }

/-- C7 counterexample: on a failed payload that still carries `data.code`,
the outcome's code and message are the `data.code` value — not
`meta.message` and not the literal `刷新失败` — because the `??` chain
selecting the code does not branch on `success`, contrary to the claim. -/
theorem C7_counterexample :
    (refreshRoomCode ⟨"east", "h"⟩ "t" (JVal.str "1") c7Fetcher).1 =
        Except.ok { code := "9999", success := false, message := "9999" } ∧
      ("9999" : String) ≠ "服务繁忙" ∧ ("9999" : String) ≠ "刷新失败" :=
  ⟨by rfl, by decide, by decide⟩

/-- C7 (amended): on a 2xx single-room refresh, malformed JSON is treated
as a null payload (yielding the failed literal-`刷新失败` outcome);
`success` is the truthiness of `meta.success`; the code is `data.code`
when non-nullish, else `meta.message` when non-nullish, else the literal
`刷新失败` — independently of `success`; and `message` equals the code
when the outcome failed and is empty when it succeeded. -/
theorem C7_refresh_parse_amended (server : ServerConfig) (token : String)
    (liveId : JVal) (fetcher : Fetcher) (res : HttpResponse)
    (hfetch : fetcher (Request.refreshVerify server.url token (jsToString liveId)) =
      Except.ok res)
    (hok : res.ok = true) :
    (∀ p, res.jsonBody = Except.ok p →
      (refreshRoomCode server token liveId fetcher).1 =
        Except.ok (parseRefreshSingle p))
    ∧ (∀ e, res.jsonBody = Except.error e →
      (refreshRoomCode server token liveId fetcher).1 =
        Except.ok (parseRefreshSingle JVal.null))
    ∧ parseRefreshSingle JVal.null =
        { code := "刷新失败", success := false, message := "刷新失败" }
    ∧ (∀ p, (parseRefreshSingle p).success = optTruthy (jPath p ["meta", "success"]))
    ∧ (∀ p v, jNN (jPath p ["data", "code"]) = some v →
        (parseRefreshSingle p).code = jsToString v)
    ∧ (∀ p w, jNN (jPath p ["data", "code"]) = none →
        jNN (jPath p ["meta", "message"]) = some w →
        (parseRefreshSingle p).code = jsToString w)
    ∧ (∀ p, jNN (jPath p ["data", "code"]) = none →
        jNN (jPath p ["meta", "message"]) = none →
        (parseRefreshSingle p).code = "刷新失败")
    ∧ (∀ p, (parseRefreshSingle p).success = false →
        (parseRefreshSingle p).message = (parseRefreshSingle p).code)
    ∧ (∀ p, (parseRefreshSingle p).success = true →
        (parseRefreshSingle p).message = "") := by
  refine ⟨?_, ?_, by rfl, fun p => rfl, ?_, ?_, ?_, ?_, ?_⟩
  · intro p hp
    simp [refreshRoomCode, hfetch, hok, safeJson, hp]
  · intro e he
    simp [refreshRoomCode, hfetch, hok, safeJson, he]
  · intro p v h
    simp [parseRefreshSingle, h]
  · intro p w h1 h2
    simp [parseRefreshSingle, h1, h2]
  · intro p h1 h2
    simp [parseRefreshSingle, h1, h2, jsToString]
  · intro p h
    have h' : optTruthy (jPath p ["meta", "success"]) = false := h
    simp [parseRefreshSingle, h']
  · intro p h
    have h' : optTruthy (jPath p ["meta", "success"]) = true := h
    simp [parseRefreshSingle, h']

/-- C7 witness: the amended theorem applied to the concrete payload. -/
theorem C7_witness :
    (refreshRoomCode ⟨"east", "h"⟩ "t" (JVal.str "1") c7Fetcher).1 =
      Except.ok (parseRefreshSingle c7Payload) :=
  (C7_refresh_parse_amended ⟨"east", "h"⟩ "t" (JVal.str "1") c7Fetcher _
    rfl rfl).1 c7Payload rfl

/-- C1 counterexample rooms: one with an id, one without. -/
def c1Room1 : JVal := JVal.obj [("id", JVal.str "1"), ("name", JVal.str "Alpha one")]

/-- C1 counterexample room without an id. -/
def c1Room2 : JVal := JVal.obj [("name", JVal.str "Bravo two")]

/-- C1 list payload holding the two rooms. -/
def c1ListPayload : JVal :=
  JVal.obj [("meta", JVal.obj [("success", JVal.bool true)]),
    ("data", JVal.arr [c1Room1, c1Room2])]

/-- C1 refresh payload (successful single refresh). -/
def c1RefreshPayload : JVal :=
  JVal.obj [("meta", JVal.obj [("success", JVal.bool true)]),
    ("data", JVal.obj [("code", JVal.str "6800")])]

/-- C1 fetcher: list and refresh endpoints both answer 2xx. -/
def c1Fetcher : Fetcher := fun req =>
  match req with
  | Request.liveList _ _ =>
    Except.ok
      { ok := true, status := 200, statusText := "OK",
        textBody := Except.ok "", jsonBody := Except.ok c1ListPayload }
  | _ =>
    Except.ok
      { ok := true, status := 200, statusText := "OK",
        textBody := Except.ok "", jsonBody := Except.ok c1RefreshPayload }

/-- C1 counterexample: a matched group with two rooms, one lacking an id.
The dispatch is on the number of collected ids (here 1), so `refreshServer`
refreshes this two-room group through the single-room endpoint
`refreshVerifyCode` and issues no batch request — contradicting the claim
that a group with two or more rooms is refreshed by `refreshMultiRoomCode`. -/
theorem C1_counterexample :
    filterLiveRooms [c1Room1, c1Room2] ["Alpha|Bravo"] =
        [MatchedGroup.mk ["Alpha", "Bravo"] [c1Room1, c1Room2]] ∧
      (MatchedGroup.mk ["Alpha", "Bravo"] [c1Room1, c1Room2]).rooms.length = 2 ∧
      (refreshServer ⟨"east", "h"⟩ "t" ["Alpha|Bravo"] c1Fetcher).2 =
        [Request.liveList "h" "t", Request.refreshVerify "h" "t" "1"] :=
  ⟨by rfl, by rfl, by rfl⟩

/-- C1 (amended): the single/batch dispatch is on the number of room ids
the group collects (`rooms.map(r => r?.id).filter(Boolean)`), not on the
number of rooms.  Every matched group is processed by `refreshGroup`
(whose outcomes form `ServerResult.rooms` in group order); a group with
exactly one collected id issues exactly the one single-room request, and a
group with two or more ids issues exactly the one batch request. -/
theorem C1_dispatch_amended (server : ServerConfig) (token : String)
    (liveNames : List String) (fetcher : Fetcher) (L : List JVal)
    (hL : (fetchLiveList server token fetcher).1 = Except.ok L) :
    ((refreshServer server token liveNames fetcher).1.rooms =
      (filterLiveRooms L liveNames).map
        (fun g => (refreshGroup server token g fetcher).1))
    ∧ (∀ g : MatchedGroup, (liveIdsOf g).length = 1 →
        (refreshGroup server token g fetcher).2 =
          [Request.refreshVerify server.url token
            (jsToString ((liveIdsOf g).headD JVal.null))])
    ∧ (∀ g : MatchedGroup, 2 ≤ (liveIdsOf g).length →
        (refreshGroup server token g fetcher).2 =
          [Request.batchRefVerify server.url token
            (String.intercalate "," (jsJoinParts (liveIdsOf g)))]) := by
  refine ⟨?_, ?_, ?_⟩
  · by_cases hm : (filterLiveRooms L liveNames).isEmpty
    · simp [refreshServer, hL, hm, List.isEmpty_iff.1 hm]
    · simp [refreshServer, hL, hm, List.map_map, Function.comp]
  · intro g h1
    have hne : (liveIdsOf g).isEmpty = false := by
      rcases he : liveIdsOf g with _ | ⟨a, t⟩
      · rw [he] at h1
        simp at h1
      · rfl
    have hbeq : ((liveIdsOf g).length == 1) = true := by
      simp [h1]
    simp [refreshGroup, hne, hbeq, refreshRoomCode_log]
    split <;> rfl
  · intro g h2
    have hne : (liveIdsOf g).isEmpty = false := by
      rcases he : liveIdsOf g with _ | ⟨a, t⟩
      · rw [he] at h2
        simp at h2
      · rfl
    have hbeq : ((liveIdsOf g).length == 1) = false := by
      simp only [beq_eq_false_iff_ne, ne_eq]
      omega
    simp [refreshGroup, hne, hbeq, refreshMultiRoomCode_log]
    split <;> rfl

/-- C1 witness group with two collected ids. -/
def c1BatchGroup : MatchedGroup :=
  MatchedGroup.mk ["Alpha", "Bravo"]
    [JVal.obj [("id", JVal.str "1")], JVal.obj [("id", JVal.str "2")]]

/-- C1 witness: a group with two ids issues exactly one batch request. -/
theorem C1_witness :
    (refreshGroup ⟨"east", "h"⟩ "t" c1BatchGroup c1Fetcher).2 =
      [Request.batchRefVerify "h" "t" "1,2"] :=
  (C1_dispatch_amended ⟨"east", "h"⟩ "t" ["Alpha|Bravo"] c1Fetcher
    [c1Room1, c1Room2] (by rfl)).2.2 c1BatchGroup (by decide)

/-- C8 counterexample room with an id. -/
def c8RoomWithId : JVal := JVal.obj [("id", JVal.str "7"), ("name", JVal.str "Xx")]

/-- C8 counterexample room without an id. -/
def c8RoomNoId : JVal := JVal.obj [("name", JVal.str "Yy")]

/-- C8 counterexample group: one room with an id, one without. -/
def c8Group : MatchedGroup := MatchedGroup.mk ["X", "Y"] [c8RoomWithId, c8RoomNoId]

/-- C8 successful single-refresh payload. -/
def c8Payload : JVal :=
  JVal.obj [("meta", JVal.obj [("success", JVal.bool true)]),
    ("data", JVal.obj [("code", JVal.str "8800")])]

/-- C8 fetcher: every request answers 2xx with the refresh payload. -/
def c8Fetcher : Fetcher := fun _ =>
  Except.ok
    { ok := true, status := 200, statusText := "OK",
      textBody := Except.ok "", jsonBody := Except.ok c8Payload }

/-- C8 counterexample: a matched group containing a room that lacks an id
(but also one that has an id) is NOT given the synthesized missing-id
outcome — the code performs a network refresh for the group, because the
synthesized outcome is produced only when no room yields an id. -/
theorem C8_counterexample :
    jGet c8RoomNoId "id" = none ∧
      (refreshGroup ⟨"east", "h"⟩ "t" c8Group c8Fetcher).2 =
        [Request.refreshVerify "h" "t" "7"] ∧
      (refreshGroup ⟨"east", "h"⟩ "t" c8Group c8Fetcher).1 =
        { name := "X|Y", code := "8800", success := true, message := "" } :=
  ⟨by rfl, by rfl, by rfl⟩

/-- C8 (amended): the missing-id outcome (message `缺少直播间 ID，无法刷码`)
is synthesized, with no network request for the group, exactly when the
group collects no room ids at all; and any exception thrown by the
dispatched refresh call is converted into a failed outcome whose message
embeds the exception text after `刷码异常：`.  The first component ties
the per-group loop to `refreshServer`'s result. -/
theorem C8_missing_id_and_exceptions (server : ServerConfig) (token : String)
    (liveNames : List String) (fetcher : Fetcher) :
    (∀ L, (fetchLiveList server token fetcher).1 = Except.ok L →
      (refreshServer server token liveNames fetcher).1.rooms =
        (filterLiveRooms L liveNames).map
          (fun g => (refreshGroup server token g fetcher).1))
    ∧ (∀ group : MatchedGroup, liveIdsOf group = [] →
        refreshGroup server token group fetcher =
          ({ name := String.intercalate "|" group.names,
             code := "缺少直播间 ID，无法刷码", success := false,
             message := "缺少直播间 ID，无法刷码" }, []))
    ∧ (∀ group : MatchedGroup, ∀ e, (liveIdsOf group).length = 1 →
        (refreshRoomCode server token ((liveIdsOf group).headD JVal.null) fetcher).1 =
          Except.error e →
        (refreshGroup server token group fetcher).1 =
          { name := String.intercalate "|" group.names,
            code := "刷码异常：" ++ e, success := false,
            message := "刷码异常：" ++ e })
    ∧ (∀ group : MatchedGroup, ∀ e, 2 ≤ (liveIdsOf group).length →
        (refreshMultiRoomCode server token (liveIdsOf group) fetcher).1 =
          Except.error e →
        (refreshGroup server token group fetcher).1 =
          { name := String.intercalate "|" group.names,
            code := "刷码异常：" ++ e, success := false,
            message := "刷码异常：" ++ e }) := by
  refine ⟨?_, ?_, ?_, ?_⟩
  · intro L hL
    by_cases hm : (filterLiveRooms L liveNames).isEmpty
    · simp [refreshServer, hL, hm, List.isEmpty_iff.1 hm]
    · simp [refreshServer, hL, hm, List.map_map, Function.comp]
  · intro group h
    simp [refreshGroup, h]
  · intro group e h1 he
    have hne : (liveIdsOf group).isEmpty = false := by
      rcases hg : liveIdsOf group with _ | ⟨a, t⟩
      · rw [hg] at h1
        simp at h1
      · rfl
    have hbeq : ((liveIdsOf group).length == 1) = true := by
      simp [h1]
    rw [List.headD_eq_head?] at he
    simp [refreshGroup, hne, hbeq, he]
  · intro group e h2 he
    have hne : (liveIdsOf group).isEmpty = false := by
      rcases hg : liveIdsOf group with _ | ⟨a, t⟩
      · rw [hg] at h2
        simp at h2
      · rfl
    have hbeq : ((liveIdsOf group).length == 1) = false := by
      simp only [beq_eq_false_iff_ne, ne_eq]
      omega
    simp [refreshGroup, hne, hbeq, he]

/-- C8 witness group: its only room has no id. -/
def c8EmptyGroup : MatchedGroup :=
  MatchedGroup.mk ["Z"] [JVal.obj [("name", JVal.str "Zz")]]

/-- C8 witness: a group with no collected ids gets the synthesized
missing-id outcome and no request. -/
theorem C8_witness :
    refreshGroup ⟨"east", "h"⟩ "t" c8EmptyGroup c8Fetcher =
      ({ name := "Z", code := "缺少直播间 ID，无法刷码", success := false,
         message := "缺少直播间 ID，无法刷码" }, []) :=
  (C8_missing_id_and_exceptions ⟨"east", "h"⟩ "t" ["Z"] c8Fetcher).2.1
    c8EmptyGroup (by rfl)

/-- C9: the per-result try/catch of the notification loop means `run`
always returns the refresh results, records one notification outcome per
result, and — for every fetcher, including ones failing some sends — its
request log ends with exactly one webhook request per `ServerResult`, in
the order the results were produced. -/
theorem C9_notifications_best_effort (cfg : RunConfig) (fetcher : Fetcher) :
    ((run cfg fetcher).1 =
        (refreshAll cfg.servers cfg.token cfg.liveNames fetcher).1)
    ∧ ((run cfg fetcher).2.1 =
        (run cfg fetcher).1.map
          (fun r => (sendNotification cfg.webhookKey r fetcher).1))
    ∧ ((run cfg fetcher).2.2 =
        (refreshAll cfg.servers cfg.token cfg.liveNames fetcher).2 ++
          (run cfg fetcher).1.map
            (fun r => Request.webhook cfg.webhookKey (buildMessage r))) := by
  have hlog : ∀ l : List ServerResult,
      ((l.map (fun r => sendNotification cfg.webhookKey r fetcher)).map
        (fun n => n.2)).flatten =
        l.map (fun r => Request.webhook cfg.webhookKey (buildMessage r)) := by
    intro l
    induction l with
    | nil => rfl
    | cons a t ih =>
      simp only [List.map_cons, List.flatten_cons, sendNotification_log, ih,
        List.singleton_append]
  refine ⟨rfl, ?_, ?_⟩
  · simp [run, List.map_map, Function.comp]
  · simp only [run]
    rw [hlog]

end LiveTask
